import Mathlib

/-!
Verification of the ProtoPRED client SDKs (two parallel Python implementations:
`protopred-api/protopred` and `protopred-pydantic-client`) against their
natural-language specification.

The Python code is shallowly embedded: JSON wire values become an inductive
type, Python dicts become association lists, fallible code returns `Except`,
and the retry loop becomes a structurally recursive function producing the
sequence of attempts and backoff waits.
-/

set_option maxRecDepth 4000

namespace ProtoPred

/-- A JSON scalar value appearing in a per-result wire object.  Wire numbers
are modelled as rationals (the clients only pass them through, never compute
with them). -/
inductive WireVal where
  | str : String → WireVal
  | num : ℚ → WireVal
deriving DecidableEq, Repr

/-- A JSON object: a Python dict with string keys, modelled as an association
list with distinct keys and first-match lookup. -/
abbrev Obj := List (String × WireVal)

/-- Python `data.get(k)` / `data[k]` lookup on a JSON object. -/
def dictGet (data : Obj) (k : String) : Option WireVal :=
  (data.find? (fun p => p.1 == k)).map (fun p => p.2)

/-- A top-level value of the response JSON under one model-name key: a single
result object (Shape A), a list of result objects (Shape B), or anything else
(malformed). -/
inductive WireTop where
  | obj : Obj → WireTop
  | arr : List Obj → WireTop
  | other : WireVal → WireTop
deriving DecidableEq, Repr

/-- Errors raised while normalizing a response, mirroring Python's
`KeyError` (required field missing in `PredictionResult.from_dict`) and the
`ValueError` raised by `PredictionResponse.from_json` for a top-level value
that is neither a mapping nor a list. -/
inductive ParseErr where
  | keyError : String → ParseErr
  | valueError : String → ParseErr
deriving DecidableEq, Repr

/-- Embedding of `protopred/models.py` `PredictionResult`: one (molecule, model) pair.
Field values are stored exactly as received from the wire (the Python
dataclass performs no conversion). -/
structure PredictionResult where
  ID : String
  SMILES : WireVal
  predicted_value : WireVal
  predicted_numerical : WireVal
  predicted_value_model_units : WireVal
  predicted_numerical_model_units : WireVal
  applicability_domain : WireVal
  experimental_value : Option WireVal := none
  experimental_numerical : Option WireVal := none
  experimental_value_model_units : Option WireVal := none
  experimental_numerical_model_units : Option WireVal := none
  probability : Option WireVal := none
  chemical_name : Option WireVal := none
  CAS : Option WireVal := none
  EC_number : Option WireVal := none
  structural_formula : Option WireVal := none
  other_regulatory_id : Option WireVal := none
deriving DecidableEq, Repr

/-- The metadata-field extraction pattern of `PredictionResult.from_dict`:
`data.get(k, "-") if data.get(k, "-") != "-" else None`. -/
def metaGet (data : Obj) (k : String) : Option WireVal :=
  if (dictGet data k).getD (.str "-") = .str "-" then none
  else some ((dictGet data k).getD (.str "-"))

/-- Embedding of `PredictionResult.from_dict(data, molecule_id)` (`protopred/models.py`).
Required fields are read with `data[...]` (a missing one raises `KeyError`),
optional fields with `data.get(...)`, and the five metadata fields through the
`"-"`-placeholder pattern. -/
def PredictionResult.from_dict (data : Obj) (molecule_id : String := "molecule_1") :
    Except ParseErr PredictionResult :=
  match dictGet data "SMILES" with
  | none => .error (.keyError "SMILES")
  | some smiles =>
  match dictGet data "Predicted value" with
  | none => .error (.keyError "Predicted value")
  | some pv =>
  match dictGet data "Predicted numerical" with
  | none => .error (.keyError "Predicted numerical")
  | some pn =>
  match dictGet data "Predicted value (model units)" with
  | none => .error (.keyError "Predicted value (model units)")
  | some pvm =>
  match dictGet data "Predicted numerical (model units)" with
  | none => .error (.keyError "Predicted numerical (model units)")
  | some pnm =>
  match dictGet data "Applicability domain**" with
  | none => .error (.keyError "Applicability domain**")
  | some ad =>
    .ok {
      ID := molecule_id
      SMILES := smiles
      predicted_value := pv
      predicted_numerical := pn
      predicted_value_model_units := pvm
      predicted_numerical_model_units := pnm
      applicability_domain := ad
      experimental_value := dictGet data "Experimental value*"
      experimental_numerical := dictGet data "Experimental numerical"
      experimental_value_model_units := dictGet data "Experimental value (model units)*"
      experimental_numerical_model_units := dictGet data "Experimental numerical (model units)"
      probability := dictGet data "Probability"
      chemical_name := metaGet data "Chemical name"
      CAS := metaGet data "CAS"
      EC_number := metaGet data "EC number"
      structural_formula := metaGet data "Structural formula"
      other_regulatory_id := metaGet data "Other Regulatory ID" }

/-- The list branch of `PredictionResponse.from_json`:
`[PredictionResult.from_dict(result, f"molecule_{i+1}") for i, result in
enumerate(result_data)]`, with `i` the running index. -/
def fromResults : List Obj → Nat → Except ParseErr (List PredictionResult)
  | [], _ => .ok []
  | d :: rest, i => do
      let p ← PredictionResult.from_dict d ("molecule_" ++ toString (i + 1))
      let ps ← fromResults rest (i + 1)
      .ok (p :: ps)

/-- Embedding of `protopred/models.py` `PredictionResponse`: model display name → ordered
list of results (a Python dict with distinct keys, in insertion order). -/
structure PredictionResponse where
  predictions : List (String × List PredictionResult)
deriving DecidableEq, Repr

/-- The entry loop of `PredictionResponse.from_json`: a dict item is parsed as
one result under the synthesized id `"molecule_1"`, a list item position-wise
under `"molecule_{i+1}"`, and any other value raises
`ValueError(f"Unexpected result format for model {model_name}: ...")`. -/
def fromJsonEntries : List (String × WireTop) →
    Except ParseErr (List (String × List PredictionResult))
  | [] => .ok []
  | (model_name, result_data) :: rest => do
      let rs ← match result_data with
        | .obj d => (PredictionResult.from_dict d "molecule_1").map (fun p => [p])
        | .arr l => fromResults l 0
        | .other _ => .error (.valueError model_name)
      let restPs ← fromJsonEntries rest
      .ok ((model_name, rs) :: restPs)

/-- Embedding of `PredictionResponse.from_json(data)` (`protopred/models.py`).  The unused
Python parameter `input_molecules` is omitted: the code never reads it. -/
def PredictionResponse.from_json (data : List (String × WireTop)) :
    Except ParseErr PredictionResponse :=
  (fromJsonEntries data).map PredictionResponse.mk

/-- Embedding of `PredictionResponse.get_model_results`: `self.predictions.get(model_name, [])`. -/
def PredictionResponse.get_model_results (resp : PredictionResponse)
    (model_name : String) : List PredictionResult :=
  match resp.predictions.find? (fun p => p.1 == model_name) with
  | some p => p.2
  | none => []

/-- Embedding of `PredictionResponse.get_molecule_results`: for each model, the first
result whose `ID` equals `molecule_id` (the inner `break`), collected into a
model-name-keyed mapping. -/
def PredictionResponse.get_molecule_results (resp : PredictionResponse)
    (molecule_id : String) : List (String × PredictionResult) :=
  resp.predictions.filterMap
    (fun p => (p.2.find? (fun pred => pred.ID == molecule_id)).map (fun pr => (p.1, pr)))

/-- A concrete wire result object in the real API's field layout, carrying an
explicit `"ID"` and `"-"` placeholders in an experimental field, the
probability field and two metadata fields (as in the repository's own tests). -/
def exObj : Obj :=
  [("ID", .str "mol_A"),
   ("SMILES", .str "CCCCC"),
   ("Predicted value", .str "0.066 g/L"),
   ("Predicted numerical", .num 66),
   ("Predicted value (model units)", .str "-3.04 log mol/L"),
   ("Predicted numerical (model units)", .num (-3)),
   ("Applicability domain**", .str "Inside (T/L/E/R)"),
   ("Experimental value*", .str "-"),
   ("Probability", .str "-"),
   ("Chemical name", .str "-"),
   ("CAS", .str "-")]

/-- The `PredictionResult` that `PredictionResult.from_dict` produces from
`exObj` under the synthesized id `"molecule_1"`. -/
def exParsed : PredictionResult where
  ID := "molecule_1"
  SMILES := .str "CCCCC"
  predicted_value := .str "0.066 g/L"
  predicted_numerical := .num 66
  predicted_value_model_units := .str "-3.04 log mol/L"
  predicted_numerical_model_units := .num (-3)
  applicability_domain := .str "Inside (T/L/E/R)"
  experimental_value := some (.str "-")
  probability := some (.str "-")

theorem exObj_from_dict : PredictionResult.from_dict exObj "molecule_1" = .ok exParsed := by
  rfl

/-- The helper `metaGet` never returns the literal placeholder `"-"`. -/
theorem metaGet_ne_dash (data : Obj) (k : String) : metaGet data k ≠ some (.str "-") := by
  unfold metaGet
  split
  · exact Option.noConfusion
  · next h => exact fun hc => h (Option.some.inj hc)

/-- A `"-"` wire value makes `metaGet` return `none`. -/
theorem metaGet_dash (data : Obj) (k : String) (h : dictGet data k = some (.str "-")) :
    metaGet data k = none := by
  simp [metaGet, h]

/-- Inversion for `PredictionResult.from_dict`: a successful parse stores the
optional fields by plain lookup and the metadata fields through `metaGet`, and
takes its `ID` from the `molecule_id` argument. -/
theorem from_dict_ok_fields (data : Obj) (mid : String) (p : PredictionResult)
    (h : PredictionResult.from_dict data mid = .ok p) :
    p.ID = mid ∧
    p.experimental_value = dictGet data "Experimental value*" ∧
    p.experimental_numerical = dictGet data "Experimental numerical" ∧
    p.experimental_value_model_units = dictGet data "Experimental value (model units)*" ∧
    p.experimental_numerical_model_units = dictGet data "Experimental numerical (model units)" ∧
    p.probability = dictGet data "Probability" ∧
    p.chemical_name = metaGet data "Chemical name" ∧
    p.CAS = metaGet data "CAS" ∧
    p.EC_number = metaGet data "EC number" ∧
    p.structural_formula = metaGet data "Structural formula" ∧
    p.other_regulatory_id = metaGet data "Other Regulatory ID" := by
  unfold PredictionResult.from_dict at h
  repeat' split at h
  all_goals first
    | exact absurd h (by exact Except.noConfusion)
    | (cases h; exact ⟨rfl, rfl, rfl, rfl, rfl, rfl, rfl, rfl, rfl, rfl, rfl⟩)

/-- The parser `from_dict` only uses `molecule_id` for the `ID` field: the parses under
two different ids differ at most in `ID`. -/
theorem from_dict_id_irrelevant (data : Obj) (i j : String) :
    PredictionResult.from_dict data i =
      (PredictionResult.from_dict data j).map (fun p => { p with ID := i }) := by
  unfold PredictionResult.from_dict
  repeat' split
  all_goals rfl

end ProtoPred

namespace ProtoPred

/-- C1: Shape equivalence of the protopred-api normalizer.  For every result
object `r` and model name `m`, `PredictionResponse.from_json` produces the very
same outcome for the Shape A response `{m: r}` and for the Shape B response
`{m: [r]}` — the same parse error, or `PredictionResult`s equal in every field
(both ids are synthesized as `"molecule_1"`, so even the IDs agree). -/
theorem shape_A_shape_B_equivalent (r : Obj) (m : String) :
    PredictionResponse.from_json [(m, .obj r)] =
      PredictionResponse.from_json [(m, .arr [r])] := by
  simp only [PredictionResponse.from_json, fromJsonEntries, fromResults]
  have e : ("molecule_" ++ toString 1 : String) = "molecule_1" := rfl
  rw [e]
  cases h : PredictionResult.from_dict r "molecule_1" <;>
    simp [h, Except.map, bind, Except.bind]

/-- C2 counterexample: the claim "every field whose wire value is `\"-\"` is
stored as absent" is false.  On `exObj`, whose `"Experimental value*"` and
`"Probability"` wire values are the literal `"-"`, `from_dict` succeeds and
stores the literal `"-"` in both fields. -/
theorem placeholder_kept_in_experimental_fields :
    ∃ p, PredictionResult.from_dict exObj "molecule_1" = .ok p ∧
      dictGet exObj "Experimental value*" = some (.str "-") ∧
      p.experimental_value = some (.str "-") ∧
      dictGet exObj "Probability" = some (.str "-") ∧
      p.probability = some (.str "-") := by
  exact ⟨exParsed, exObj_from_dict, rfl, rfl, rfl, rfl⟩

/-- C2 (amended): only the five metadata fields (chemical name, CAS, EC
number, structural formula, other regulatory id) are placeholder-normalized:
in every successful parse each of them is never the literal `"-"` and is
`none` whenever its wire value is `"-"`; the experimental value/numerical
fields, their model-unit counterparts, and the probability field are stored
verbatim from the wire. -/
theorem metadata_placeholder_normalized (data : Obj) (mid : String) (p : PredictionResult)
    (h : PredictionResult.from_dict data mid = .ok p) :
    (p.chemical_name ≠ some (.str "-") ∧
      (dictGet data "Chemical name" = some (.str "-") → p.chemical_name = none)) ∧
    (p.CAS ≠ some (.str "-") ∧
      (dictGet data "CAS" = some (.str "-") → p.CAS = none)) ∧
    (p.EC_number ≠ some (.str "-") ∧
      (dictGet data "EC number" = some (.str "-") → p.EC_number = none)) ∧
    (p.structural_formula ≠ some (.str "-") ∧
      (dictGet data "Structural formula" = some (.str "-") → p.structural_formula = none)) ∧
    (p.other_regulatory_id ≠ some (.str "-") ∧
      (dictGet data "Other Regulatory ID" = some (.str "-") → p.other_regulatory_id = none)) ∧
    p.experimental_value = dictGet data "Experimental value*" ∧
    p.experimental_numerical = dictGet data "Experimental numerical" ∧
    p.experimental_value_model_units = dictGet data "Experimental value (model units)*" ∧
    p.experimental_numerical_model_units =
      dictGet data "Experimental numerical (model units)" ∧
    p.probability = dictGet data "Probability" := by
  obtain ⟨-, hev, hen, hevm, henm, hpr, hcn, hcas, hec, hsf, hor⟩ :=
    from_dict_ok_fields data mid p h
  refine ⟨⟨?_, ?_⟩, ⟨?_, ?_⟩, ⟨?_, ?_⟩, ⟨?_, ?_⟩, ⟨?_, ?_⟩, hev, hen, hevm, henm, hpr⟩ <;>
    first
      | (rw [hcn]; first | exact metaGet_ne_dash data _ | exact metaGet_dash data _)
      | (rw [hcas]; first | exact metaGet_ne_dash data _ | exact metaGet_dash data _)
      | (rw [hec]; first | exact metaGet_ne_dash data _ | exact metaGet_dash data _)
      | (rw [hsf]; first | exact metaGet_ne_dash data _ | exact metaGet_dash data _)
      | (rw [hor]; first | exact metaGet_ne_dash data _ | exact metaGet_dash data _)

/-- Witness for the amended C2 at the concrete input `exObj`. -/
theorem metadata_placeholder_normalized_witness :
    (exParsed.chemical_name ≠ some (.str "-") ∧
      (dictGet exObj "Chemical name" = some (.str "-") → exParsed.chemical_name = none)) ∧
    (exParsed.CAS ≠ some (.str "-") ∧
      (dictGet exObj "CAS" = some (.str "-") → exParsed.CAS = none)) ∧
    (exParsed.EC_number ≠ some (.str "-") ∧
      (dictGet exObj "EC number" = some (.str "-") → exParsed.EC_number = none)) ∧
    (exParsed.structural_formula ≠ some (.str "-") ∧
      (dictGet exObj "Structural formula" = some (.str "-") → exParsed.structural_formula = none)) ∧
    (exParsed.other_regulatory_id ≠ some (.str "-") ∧
      (dictGet exObj "Other Regulatory ID" = some (.str "-") → exParsed.other_regulatory_id = none)) ∧
    exParsed.experimental_value = dictGet exObj "Experimental value*" ∧
    exParsed.experimental_numerical = dictGet exObj "Experimental numerical" ∧
    exParsed.experimental_value_model_units =
      dictGet exObj "Experimental value (model units)*" ∧
    exParsed.experimental_numerical_model_units =
      dictGet exObj "Experimental numerical (model units)" ∧
    exParsed.probability = dictGet exObj "Probability" :=
  metadata_placeholder_normalized exObj "molecule_1" exParsed exObj_from_dict

/-- C3: evaluation at the failing input.  For the Shape B response
`{"Water solubility": [exObj]}`, whose single result object carries the
explicit wire id `"ID": "mol_A"`, `from_json` assigns the positional id
`"molecule_1"` instead of `"mol_A"`, so lookup by the caller's molecule id
`"mol_A"` finds nothing (the repository's own tests assert the wire id is
kept and thus fail on this code). -/
theorem batch_wire_id_ignored :
    PredictionResponse.from_json [("Water solubility", .arr [exObj])] =
      .ok ⟨[("Water solubility", [exParsed])]⟩ ∧
    dictGet exObj "ID" = some (.str "mol_A") ∧
    exParsed.ID = "molecule_1" ∧
    PredictionResponse.get_molecule_results ⟨[("Water solubility", [exParsed])]⟩ "mol_A" = [] ∧
    PredictionResponse.get_molecule_results ⟨[("Water solubility", [exParsed])]⟩ "molecule_1" =
      [("Water solubility", exParsed)] := by
  refine ⟨?_, rfl, rfl, ?_, ?_⟩ <;> rfl

/-- Dict lookup on an association list with distinct keys finds the stored
value of a present key. -/
theorem find?_key_of_mem {β : Type} {l : List (String × β)}
    (hnd : (l.map Prod.fst).Nodup) {k : String} {v : β} (h : (k, v) ∈ l) :
    l.find? (fun p => p.1 == k) = some (k, v) := by
  induction l with
  | nil => cases h
  | cons hd tl ih =>
    simp only [List.map_cons, List.nodup_cons] at hnd
    rcases List.mem_cons.1 h with h1 | h1
    · subst h1
      simp [List.find?]
    · have hne : hd.1 ≠ k := by
        intro he
        exact hnd.1 (he ▸ (List.mem_map.2 ⟨(k, v), h1, rfl⟩))
      rw [List.find?_cons_of_neg]
      · exact ih hnd.2 h1
      · simp [hne]

/-- A successful `find?` splits the list at its first hit. -/
theorem find?_first {α : Type} {p : α → Bool} {l : List α} {a : α}
    (h : l.find? p = some a) :
    ∃ l₁ l₂, l = l₁ ++ a :: l₂ ∧ (∀ b ∈ l₁, p b = false) ∧ p a = true := by
  induction l with
  | nil => cases h
  | cons hd tl ih =>
    by_cases hp : p hd
    · rw [List.find?_cons_of_pos _ hp] at h
      exact ⟨[], tl, by simpa using (Option.some.inj h) ▸ rfl, by simp, (Option.some.inj h) ▸ hp⟩
    · rw [List.find?_cons_of_neg _ hp] at h
      obtain ⟨l₁, l₂, rfl, hl₁, ha⟩ := ih h
      exact ⟨hd :: l₁, l₂, rfl, by
        intro b hb
        rcases List.mem_cons.1 hb with rfl | hb
        · exact Bool.of_not_eq_true hp
        · exact hl₁ b hb, ha⟩

/-- Applying `filterMap` by a key-preserving function keeps the key list a sublist of
the original key list. -/
theorem map_fst_filterMap_sublist {β γ : Type} (f : (String × β) → Option (String × γ))
    (hf : ∀ x y, f x = some y → y.1 = x.1) (l : List (String × β)) :
    ((l.filterMap f).map Prod.fst).Sublist (l.map Prod.fst) := by
  induction l with
  | nil => simp
  | cons hd tl ih =>
    cases hfh : f hd with
    | none =>
      rw [List.filterMap_cons_none hfh, List.map_cons]
      exact ih.cons _
    | some y =>
      rw [List.filterMap_cons_some hfh, List.map_cons, List.map_cons, hf hd y hfh]
      exact ih.cons₂ _

/-- C9: response lookups are total.  On a response whose model names are
distinct (as they are for any Python dict), `get_model_results` returns the
stored list for a present model and `[]` for an absent one; and
`get_molecule_results` returns a mapping with at most one entry per model,
each being the first result of that model's list whose `ID` matches, and the
empty mapping when no result matches at all. -/
theorem response_lookups_total (resp : PredictionResponse)
    (hnd : (resp.predictions.map Prod.fst).Nodup) :
    (∀ name l, (name, l) ∈ resp.predictions → resp.get_model_results name = l) ∧
    (∀ name, name ∉ resp.predictions.map Prod.fst → resp.get_model_results name = []) ∧
    (∀ mid m pr, (m, pr) ∈ resp.get_molecule_results mid →
      pr.ID = mid ∧
      ∃ l l₁ l₂, (m, l) ∈ resp.predictions ∧ l = l₁ ++ pr :: l₂ ∧
        ∀ q ∈ l₁, q.ID ≠ mid) ∧
    (∀ mid, ((resp.get_molecule_results mid).map Prod.fst).Nodup) ∧
    (∀ mid, (∀ m l, (m, l) ∈ resp.predictions → ∀ pr ∈ l, pr.ID ≠ mid) →
      resp.get_molecule_results mid = []) := by
  refine ⟨?_, ?_, ?_, ?_, ?_⟩
  · intro name l h
    unfold PredictionResponse.get_model_results
    rw [find?_key_of_mem hnd h]
  · intro name h
    unfold PredictionResponse.get_model_results
    rw [List.find?_eq_none.2]
    intro x hx
    simp only [beq_iff_eq]
    intro he
    exact h (he ▸ List.mem_map.2 ⟨x, hx, rfl⟩)
  · intro mid m pr h
    unfold PredictionResponse.get_molecule_results at h
    obtain ⟨⟨m', l⟩, hmem, hf⟩ := List.mem_filterMap.1 h
    simp only [Option.map_eq_some'] at hf
    obtain ⟨pr', hfind, heq⟩ := hf
    injection heq with hm hpr
    subst hm
    subst hpr
    obtain ⟨l₁, l₂, rfl, hl₁, hpr⟩ := find?_first hfind
    refine ⟨by simpa using hpr, _, l₁, l₂, hmem, rfl, ?_⟩
    intro q hq
    simpa using hl₁ q hq
  · intro mid
    unfold PredictionResponse.get_molecule_results
    refine List.Nodup.sublist ?_ hnd
    apply map_fst_filterMap_sublist
    intro x y hxy
    simp only [Option.map_eq_some'] at hxy
    obtain ⟨pr', _, heq⟩ := hxy
    exact (congrArg Prod.fst heq).symm
  · intro mid h
    unfold PredictionResponse.get_molecule_results
    rw [List.filterMap_eq_nil_iff]
    rintro ⟨m, l⟩ hml
    rw [Option.map_eq_none', List.find?_eq_none]
    intro pr hpr
    simpa using h m l hml pr hpr

/-- A concrete two-model response used to witness the lookup properties. -/
def respEx : PredictionResponse :=
  ⟨[("Water solubility", [exParsed]), ("Melting point", [])]⟩

/-- Witness for C9 at the concrete response `respEx`. -/
theorem response_lookups_total_witness :
    respEx.get_model_results "Water solubility" = [exParsed] ∧
    respEx.get_model_results "Boiling point" = [] ∧
    respEx.get_molecule_results "mol_A" = [] :=
  ⟨(response_lookups_total respEx (by decide)).1 "Water solubility" [exParsed] (by decide),
   (response_lookups_total respEx (by decide)).2.1 "Boiling point" (by decide),
   (response_lookups_total respEx (by decide)).2.2.2.2 "mol_A" (by
    intro m l hml pr hpr
    simp only [respEx, List.mem_cons, List.not_mem_nil, or_false] at hml
    rcases hml with h | h
    · injection h with h1 h2
      subst h2
      have hp : pr = exParsed := by simpa using hpr
      subst hp
      decide
    · injection h with h1 h2
      subst h2
      simp at hpr)⟩

/-! ### The pydantic client (`protopred-pydantic-client`) -/

namespace Pyd

/-- A decoded top-level JSON response body: a mapping (Python dict), or any
non-mapping value (list, scalar, ...). -/
inductive JBody where
  | obj : List (String × WireTop) → JBody
  | nonObj : JBody
deriving DecidableEq, Repr

/-- A completed HTTP response, as the clients observe it: status code, body
text, whether the `Content-Type` header starts with `application/json`, and
the decoded JSON body (`none` when `response.json()` would raise). -/
structure HttpResp where
  status : Nat
  text : String
  contentTypeJson : Bool
  jsonBody : Option JBody
  xExtraJson : Option (List (String × WireTop)) := none
deriving DecidableEq, Repr

/-- The typed errors of the two `exceptions.py` modules.  `protoPredError` is
the shared base class `ProtoPREDError`, raised directly by the pydantic
client's generic response-parsing wrapper. -/
inductive PyError where
  | authenticationError (msg : String)
  | validationError (msg : String)
  | apiError (msg : String) (status_code : Option Nat)
  | protoPredError (msg : String)
  | networkError (msg : String)
  | timeoutError (msg : String)
deriving DecidableEq, Repr

/-- Embedding of `ClientConfig` (`protopred-pydantic-client/models.py`), defaults included. -/
structure ClientConfig where
  base_url : String := "https://protopred.protoqsar.com/API/v2/"
  timeout : Nat := 30
  max_retries : Nat := 3
  retry_delay : ℚ := 1
deriving DecidableEq, Repr

/-- Python `v.endswith('/')`: the last character is `'/'`. -/
def endsWithSlash (v : String) : Bool := v.data.getLast? == some '/'

/-- The `validate_base_url` field validator: append `'/'` unless present. -/
def validate_base_url (v : String) : String :=
  if endsWithSlash v then v else v ++ "/"

/-- Constructing a `ClientConfig` from a caller-supplied base URL runs the
field validator (pydantic applies it before the model is built). -/
def ClientConfig.ofBaseUrl (v : String) : ClientConfig :=
  { base_url := validate_base_url v }

/-- What one POST attempt of the underlying transport does: the two retried
exception classes (`requests.exceptions.Timeout` / `ConnectionError`), any
other `RequestException`, or a completed response. -/
inductive AttemptOutcome where
  | timeout
  | connError
  | reqError (msg : String)
  | response (r : HttpResp)
deriving DecidableEq, Repr

/-- Outcome of the `for attempt in range(max_retries + 1)` loop of
`ProtoPREDClient._make_request`: a completed response handed to
`_handle_response`, or a raised typed error. -/
inductive ReqOutcome where
  | gotResponse (r : HttpResp)
  | failed (e : PyError)
deriving DecidableEq, Repr

/-- The retry loop of `_make_request`, instrumented with its observable
behaviour: the result, the number of POSTs performed, and the list of backoff
waits (in seconds) in the order they are slept.  `attempt` is the 0-indexed
attempt counter, `remaining` the number of retries still allowed
(`max_retries - attempt`).  A completed response ends the loop; any
`RequestException` other than `Timeout`/`ConnectionError` raises
`NetworkError` at once; `Timeout`/`ConnectionError` sleeps
`retry_delay * 2 ** attempt` and retries while retries remain, else raises
`TimeoutError`/`NetworkError` naming the total attempt count. -/
def requestLoop (t : Nat → AttemptOutcome) (cfg : ClientConfig) :
    Nat → Nat → ReqOutcome × Nat × List ℚ
  | attempt, 0 =>
    match t attempt with
    | .response r => (.gotResponse r, 1, [])
    | .reqError m => (.failed (.networkError ("Request failed: " ++ m)), 1, [])
    | .timeout =>
        (.failed (.timeoutError
          ("Request timed out after " ++ toString (cfg.max_retries + 1) ++ " attempts")), 1, [])
    | .connError =>
        (.failed (.networkError
          ("Connection failed after " ++ toString (cfg.max_retries + 1) ++ " attempts")), 1, [])
  | attempt, r + 1 =>
    match t attempt with
    | .response r => (.gotResponse r, 1, [])
    | .reqError m => (.failed (.networkError ("Request failed: " ++ m)), 1, [])
    | .timeout =>
        let res := requestLoop t cfg (attempt + 1) r
        (res.1, res.2.1 + 1, (cfg.retry_delay * 2 ^ attempt) :: res.2.2)
    | .connError =>
        let res := requestLoop t cfg (attempt + 1) r
        (res.1, res.2.1 + 1, (cfg.retry_delay * 2 ^ attempt) :: res.2.2)

/-- The `_make_request` loop as called: first attempt 0, `max_retries` retries
remaining. -/
def make_request (t : Nat → AttemptOutcome) (cfg : ClientConfig) :
    ReqOutcome × Nat × List ℚ :=
  requestLoop t cfg 0 cfg.max_retries

/-- Full characterization of the retry loop, by induction on the remaining
retries: at least one and at most `remaining + 1` POSTs; every non-final
attempt failed with timeout or connection error; the waits are exactly
`retry_delay * 2 ^ k` for the non-final attempts `k` in order; and a
completed response on the final attempt is returned as the result. -/
theorem requestLoop_spec (t : Nat → AttemptOutcome) (cfg : ClientConfig) :
    ∀ remaining attempt,
      1 ≤ (requestLoop t cfg attempt remaining).2.1 ∧
      (requestLoop t cfg attempt remaining).2.1 ≤ remaining + 1 ∧
      (∀ k, attempt ≤ k → k + 1 < attempt + (requestLoop t cfg attempt remaining).2.1 →
        t k = .timeout ∨ t k = .connError) ∧
      (requestLoop t cfg attempt remaining).2.2 =
        (List.range' attempt ((requestLoop t cfg attempt remaining).2.1 - 1)).map
          (fun k => cfg.retry_delay * 2 ^ k) ∧
      (∀ r, t (attempt + (requestLoop t cfg attempt remaining).2.1 - 1) = .response r →
        (requestLoop t cfg attempt remaining).1 = .gotResponse r) := by
  intro remaining
  induction remaining with
  | zero =>
    intro attempt
    cases h : t attempt <;> simp only [requestLoop, h] <;>
      refine ⟨le_refl 1, by omega, fun k h1 h2 => absurd h2 (by omega), by simp, ?_⟩ <;>
      intro r hr <;>
      rw [Nat.add_sub_cancel] at hr <;>
      rw [h] at hr
    · cases hr
    · cases hr
    · cases hr
    · injection hr with hrr
      rw [hrr]
  | succ rem ih =>
    intro attempt
    cases h : t attempt <;> simp only [requestLoop, h]
    case timeout | connError =>
      obtain ⟨i1, i2, i3, i4, i5⟩ := ih (attempt + 1)
      obtain ⟨m, hm⟩ : ∃ m, (requestLoop t cfg (attempt + 1) rem).2.1 = m + 1 :=
        ⟨(requestLoop t cfg (attempt + 1) rem).2.1 - 1, by omega⟩
      refine ⟨by omega, by omega, ?_, ?_, ?_⟩
      · intro k h1 h2
        rcases Nat.eq_or_lt_of_le h1 with h1 | h1
        · first
            | exact Or.inl (h1 ▸ h)
            | exact Or.inr (h1 ▸ h)
        · exact i3 k h1 (by omega)
      · rw [i4, hm]
        simp only [Nat.add_sub_cancel]
        rw [List.range'_succ, List.map_cons]
      · intro r hr
        refine i5 r ?_
        have he : attempt + 1 + (requestLoop t cfg (attempt + 1) rem).2.1 - 1 =
            attempt + ((requestLoop t cfg (attempt + 1) rem).2.1 + 1) - 1 := by omega
        rw [he]
        exact hr
    case reqError m =>
      refine ⟨le_refl 1, by omega, fun k h1 h2 => absurd h2 (by omega), by simp, ?_⟩
      intro r hr
      rw [Nat.add_sub_cancel, h] at hr
      cases hr
    case response r0 =>
      refine ⟨le_refl 1, by omega, fun k h1 h2 => absurd h2 (by omega), by simp, ?_⟩
      intro r hr
      rw [Nat.add_sub_cancel, h] at hr
      injection hr with hrr
      rw [hrr]

/-- A successful 200 JSON response used in concrete scenarios. -/
def httpOk : HttpResp where
  status := 200
  text := ""
  contentTypeJson := true
  jsonBody := some (.obj [])

/-- Python `str()` of a wire scalar. -/
def wireValStr : WireVal → String
  | .str s => s
  | .num q => toString q

/-- Python `str()` of a top-level wire value.  Only the scalar case is
rendered exactly; dict/list reprs are abbreviated (no claim depends on
them). -/
def wireTopStr : WireTop → String
  | .other v => wireValStr v
  | .obj _ => "{...}"
  | .arr _ => "[...]"

/-- Message carried by a raised error: Python `str(e)`. -/
def PyError.msg : PyError → String
  | .authenticationError m => m
  | .validationError m => m
  | .apiError m _ => m
  | .protoPredError m => m
  | .networkError m => m
  | .timeoutError m => m

/-- Output formats (`OutputType` enum of both clients). -/
inductive OutputType where
  | json
  | xlsx
deriving DecidableEq, Repr

/-- Embedding of `ModelResult` (`protopred-pydantic-client/models.py`). -/
structure ModelResult where
  model_name : String
  prediction : WireVal
  unit : Option String := none
  confidence : Option ℚ := none
deriving DecidableEq, Repr

/-- Embedding of `MoleculeResult` (`protopred-pydantic-client/models.py`). -/
structure MoleculeResult where
  molecule_id : String
  smiles : WireVal
  models : List (String × ModelResult)
deriving DecidableEq, Repr

/-- Embedding of the pydantic client `PredictionResponse`. -/
structure PredictionResponseP where
  success : Bool
  message : Option String := none
  molecules : List MoleculeResult := []
  metadata : Option (List (String × WireTop)) := none
deriving DecidableEq, Repr

/-- The metadata keys that `from_api_response` does not treat as model
results. -/
def metadataKeys : List String :=
  ["SMILES", "CAS", "Chemical name", "EC number", "Structural formula"]

/-- Embedding of `PredictionResponse.from_api_response(response_data, extra_json)`:
every top-level entry whose value is a dict containing a `"SMILES"` key
becomes a `MoleculeResult` keyed by that entry's key, with every
non-metadata field turned into a `ModelResult`; everything else is skipped;
`success` is always true. -/
def from_api_response (body : JBody)
    (extra_json : Option (List (String × WireTop))) : PredictionResponseP :=
  let molecules :=
    match body with
    | .obj entries =>
        entries.filterMap (fun e =>
          match e.2 with
          | .obj d =>
              if (dictGet d "SMILES").isSome then
                some { molecule_id := e.1
                       smiles := (dictGet d "SMILES").getD (.str "")
                       models := (d.filter (fun p => !(metadataKeys.contains p.1))).map
                         (fun p => (p.1, { model_name := p.1, prediction := p.2 })) }
              else none
          | _ => none)
    | .nonObj => []
  { success := true
    molecules := molecules
    metadata := match extra_json with
      | some l => if l.isEmpty then none else some l
      | none => none }

/-- The `X-Extra-JSON` side channel as `_handle_response` consumes it: the
parsed dict when the header is present and valid JSON, `none` when absent or
malformed (malformed is silently dropped). -/
def HttpResp.extraMeta (r : HttpResp) : Option (List (String × WireTop)) :=
  r.xExtraJson

/-- Result of a successful `_handle_response`: a parsed JSON response or raw
XLSX bytes (modelled as the body text). -/
inductive HandleOk where
  | jsonResp (p : PredictionResponseP)
  | xlsxBytes (content : String)
deriving DecidableEq, Repr

/-- The body of `_handle_response`'s inner `try` block after a successful
`response.json()`: raise `APIError` when the decoded mapping carries an
`"error"` key, else build the response via `from_api_response`. -/
def handleJsonTry (r : HttpResp) (body : JBody) : Except PyError PredictionResponseP :=
  match body with
  | .obj entries =>
      match entries.find? (fun p => p.1 == "error") with
      | some p => .error (.apiError (wireTopStr p.2) none)
      | none => .ok (from_api_response body r.extraMeta)
  | .nonObj => .ok (from_api_response body r.extraMeta)

/-- Embedding of `ProtoPREDClient._handle_response` (`protopred-pydantic-client/client.py`).
Status classification first (`response.ok` is `status < 400` in requests,
but `raise_for_status`-style errors only exist below 600, so "not ok" is
`400 ≤ status < 600`); then the XLSX shortcut; then JSON decoding
(`response.json()` failing raises `APIError("Invalid JSON response: ...")`).
The inner `try` block checks for a top-level `"error"` key and raises
`APIError`, but its own generic `except Exception` clause catches that very
`APIError` and re-raises it as `ProtoPREDError("Response parsing failed: " +
str(e))`. -/
def handle_response (r : HttpResp) (output_type : OutputType) : Except PyError HandleOk :=
  if r.status = 401 then
    .error (.authenticationError "Invalid authentication credentials")
  else if r.status = 400 then
    .error (.validationError ("Bad request: " ++ r.text))
  else if 400 ≤ r.status ∧ r.status < 600 then
    .error (.apiError ("HTTP " ++ toString r.status ++ ": " ++ r.text) (some r.status))
  else if output_type = .xlsx then
    .ok (.xlsxBytes r.text)
  else
    match r.jsonBody with
    | none => .error (.apiError ("Invalid JSON response: " ++ "<JSONDecodeError>") none)
    | some body =>
        match handleJsonTry r body with
        | .ok v => .ok (.jsonResp v)
        | .error e => .error (.protoPredError ("Response parsing failed: " ++ e.msg))

/-- The configuration of the spec's retry scenario: `max_retries=2`,
`retry_delay=1.0`. -/
def cfg2 : ClientConfig := { max_retries := 2, retry_delay := 1 }

/-- C4: retry behaviour of the pydantic transport.  One POST per attempt and
at most `max_retries + 1` attempts; every retried (non-final) attempt failed
with a timeout or connection error — any other outcome ends the loop; the
waits are exactly `retry_delay * 2 ^ k` after 0-indexed attempt `k`; a
completed response on the final attempt is returned; and in the concrete
scenario (`max_retries=2`, `retry_delay=1.0`, transport timing out twice then
succeeding) exactly 3 attempts are made, with waits of 1s then 2s, returning
the successful response. -/
theorem retry_behavior (t : Nat → AttemptOutcome) (cfg : ClientConfig) :
    1 ≤ (make_request t cfg).2.1 ∧
    (make_request t cfg).2.1 ≤ cfg.max_retries + 1 ∧
    (∀ k, k + 1 < (make_request t cfg).2.1 → t k = .timeout ∨ t k = .connError) ∧
    (make_request t cfg).2.2 =
      (List.range ((make_request t cfg).2.1 - 1)).map (fun k => cfg.retry_delay * 2 ^ k) ∧
    (∀ r, t ((make_request t cfg).2.1 - 1) = .response r →
      (make_request t cfg).1 = .gotResponse r) ∧
    (∀ r, cfg.max_retries = 2 → cfg.retry_delay = 1 →
      make_request (fun k => if k < 2 then .timeout else .response r) cfg =
        (.gotResponse r, 3, [1, 2])) := by
  simp only [make_request]
  obtain ⟨i1, i2, i3, i4, i5⟩ := requestLoop_spec t cfg cfg.max_retries 0
  refine ⟨i1, i2, fun k hk => i3 k (Nat.zero_le k) (by omega), ?_, ?_, ?_⟩
  · rw [List.range_eq_range']
    exact i4
  · intro r hr
    exact i5 r (by rw [Nat.zero_add]; exact hr)
  · intro r h2 h1
    rw [h2]
    norm_num [requestLoop, h1]

/-- Witness for C4: the spec's retry scenario evaluated concretely. -/
theorem retry_behavior_witness :
    make_request (fun k => if k < 2 then .timeout else .response httpOk) cfg2 =
      (.gotResponse httpOk, 3, [1, 2]) :=
  (retry_behavior (fun _ => .timeout) cfg2).2.2.2.2.2 httpOk rfl rfl

end Pyd

/-! ### The protopred-api client (`protopred-api/protopred`) -/

namespace Api

open Pyd in
/-- The response-classification part of `ProtoPREDClient._make_request`
(`protopred-api/protopred/client.py`): `response.raise_for_status()` raises
`HTTPError` exactly for statuses in `[400, 600)`, mapped by the `except`
clauses to 401 → `AuthenticationError`, 400 → `ValidationError` with the body
text, other → `APIError` with status and body text; then, when the
`Content-Type` header starts with `application/json`, the decoded body is
checked for a top-level `"error"` key, raising `APIError` with the error
value (`response.json()` failing instead raises requests'
`JSONDecodeError`, a `RequestException`, mapped to `NetworkError`). -/
def classify_response (r : HttpResp) : Except PyError HttpResp :=
  if 400 ≤ r.status ∧ r.status < 600 then
    (if r.status = 401 then
      .error (.authenticationError "Invalid authentication credentials")
    else if r.status = 400 then
      .error (.validationError ("Bad request: " ++ r.text))
    else
      .error (.apiError ("HTTP " ++ toString r.status ++ ": " ++ r.text) none))
  else if r.contentTypeJson then
    match r.jsonBody with
    | none => .error (.networkError ("Request failed: " ++ "<JSONDecodeError>"))
    | some (.obj entries) =>
        match entries.find? (fun p => p.1 == "error") with
        | some p => .error (.apiError (wireTopStr p.2) none)
        | none => .ok r
    | some .nonObj => .ok r
  else .ok r

end Api

open Pyd in
/-- A 2xx JSON response whose body is a mapping with an `"error"` key. -/
def resp200err : HttpResp where
  status := 200
  text := "\x7b\x7d"
  contentTypeJson := true
  jsonBody := some (.obj [("error", .other (.str "Invalid module"))])

open Pyd in
/-- A completed (non-followed) redirect response: non-2xx but below 400. -/
def resp302 : HttpResp where
  status := 302
  text := "Found"
  contentTypeJson := false
  jsonBody := none

open Pyd in
/-- An authentication-failure response. -/
def resp401 : HttpResp where
  status := 401
  text := "Unauthorized"
  contentTypeJson := false
  jsonBody := none

/-- C5 counterexample.  (a) On a 2xx response whose JSON body carries an
`"error"` key, the pydantic `_handle_response` does not raise `APIError`: its
generic `except Exception` clause catches the `APIError` raised inside the
`try` block and re-raises it as `ProtoPREDError("Response parsing failed:
...")`.  (b) On a completed 302 response — non-2xx — the protopred-api
classifier raises nothing at all (`raise_for_status` only fires for statuses
in `[400, 600)`). -/
theorem error_key_wrap_and_redirect_counterexample :
    Pyd.handle_response resp200err .json =
      .error (.protoPredError "Response parsing failed: Invalid module") ∧
    (∀ m sc, Pyd.handle_response resp200err .json ≠ .error (.apiError m sc)) ∧
    Api.classify_response resp302 = .ok resp302 ∧
    (∀ e, Api.classify_response resp302 ≠ .error e) := by
  refine ⟨rfl, ?_, rfl, ?_⟩
  · intro m sc h
    rw [show Pyd.handle_response resp200err .json =
        .error (.protoPredError "Response parsing failed: Invalid module") from rfl] at h
    exact Pyd.PyError.noConfusion (Except.error.inj h)
  · intro e h
    rw [show Api.classify_response resp302 = .ok resp302 from rfl] at h
    exact Except.noConfusion h

/-- C5 (amended): classification of completed HTTP responses in both clients.
401 → `AuthenticationError`; 400 → `ValidationError` preserving the body
text; any other status in `[400, 600)` → `APIError` carrying the status code
and raw body text; a below-400 JSON mapping body containing an `"error"` key
makes the protopred-api client raise `APIError` with the error value, while
the pydantic client wraps the same `APIError` into
`ProtoPREDError("Response parsing failed: ...")`; and statuses below 400
(including completed redirects) are never classified as status errors: the
final two conjuncts list each client's only possible outcomes there —
success, the JSON-decode failure, or the `"error"`-key application
failure. -/
theorem status_classification (r : Pyd.HttpResp) :
    (r.status = 401 →
      Api.classify_response r =
        .error (.authenticationError "Invalid authentication credentials") ∧
      Pyd.handle_response r .json =
        .error (.authenticationError "Invalid authentication credentials")) ∧
    (r.status = 400 →
      Api.classify_response r = .error (.validationError ("Bad request: " ++ r.text)) ∧
      Pyd.handle_response r .json = .error (.validationError ("Bad request: " ++ r.text))) ∧
    (400 ≤ r.status → r.status < 600 → r.status ≠ 400 → r.status ≠ 401 →
      Api.classify_response r =
        .error (.apiError ("HTTP " ++ toString r.status ++ ": " ++ r.text) none) ∧
      Pyd.handle_response r .json =
        .error (.apiError ("HTTP " ++ toString r.status ++ ": " ++ r.text) (some r.status))) ∧
    (∀ entries p, r.status < 400 → r.contentTypeJson = true →
      r.jsonBody = some (.obj entries) →
      entries.find? (fun q => q.1 == "error") = some p →
      Api.classify_response r = .error (.apiError (Pyd.wireTopStr p.2) none) ∧
      Pyd.handle_response r .json =
        .error (.protoPredError ("Response parsing failed: " ++ Pyd.wireTopStr p.2))) ∧
    (r.status < 400 →
      Api.classify_response r = .ok r ∨
      Api.classify_response r =
        .error (.networkError ("Request failed: " ++ "<JSONDecodeError>")) ∨
      ∃ p : String × WireTop,
        Api.classify_response r = .error (.apiError (Pyd.wireTopStr p.2) none)) ∧
    (r.status < 400 →
      (∃ v, Pyd.handle_response r .json = .ok v) ∨
      Pyd.handle_response r .json =
        .error (.apiError ("Invalid JSON response: " ++ "<JSONDecodeError>") none) ∨
      ∃ p : String × WireTop,
        Pyd.handle_response r .json =
          .error (.protoPredError ("Response parsing failed: " ++ Pyd.wireTopStr p.2))) := by
  refine ⟨?_, ?_, ?_, ?_, ?_, ?_⟩
  · intro h
    constructor
    · simp [Api.classify_response, h]
    · simp [Pyd.handle_response, h]
  · intro h
    constructor
    · simp [Api.classify_response, h]
    · simp [Pyd.handle_response, h]
  · intro h1 h2 h3 h4
    constructor
    · unfold Api.classify_response
      rw [if_pos ⟨h1, h2⟩, if_neg h4, if_neg h3]
    · unfold Pyd.handle_response
      rw [if_neg h4, if_neg h3, if_pos ⟨h1, h2⟩]
  · intro entries p h0 hct hjson hfind
    have hns : ¬(400 ≤ r.status ∧ r.status < 600) := by omega
    have h401 : r.status ≠ 401 := by omega
    have h400 : r.status ≠ 400 := by omega
    constructor
    · simp [Api.classify_response, hns, hct, hjson, hfind]
    · simp [Pyd.handle_response, Pyd.handleJsonTry, h401, h400, hns, hjson, hfind,
        Pyd.PyError.msg]
  · intro h0
    have hns : ¬(400 ≤ r.status ∧ r.status < 600) := by omega
    cases hct : r.contentTypeJson with
    | false =>
      left
      simp [Api.classify_response, hns, hct]
    | true =>
      cases hb : r.jsonBody with
      | none =>
        right
        left
        simp [Api.classify_response, hns, hct, hb]
      | some body =>
        cases body with
        | nonObj =>
          left
          simp [Api.classify_response, hns, hct, hb]
        | obj entries =>
          cases hf : entries.find? (fun q => q.1 == "error") with
          | none =>
            left
            simp [Api.classify_response, hns, hct, hb, hf]
          | some p =>
            right
            right
            exact ⟨p, by simp [Api.classify_response, hns, hct, hb, hf]⟩
  · intro h0
    have h401 : r.status ≠ 401 := by omega
    have h400 : r.status ≠ 400 := by omega
    have hns : ¬(400 ≤ r.status ∧ r.status < 600) := by omega
    cases hb : r.jsonBody with
    | none =>
      right
      left
      simp [Pyd.handle_response, h401, h400, hns, hb]
    | some body =>
      cases body with
      | nonObj =>
        left
        exact ⟨.jsonResp (Pyd.from_api_response .nonObj r.extraMeta), by
          simp [Pyd.handle_response, Pyd.handleJsonTry, h401, h400, hns, hb]⟩
      | obj entries =>
        cases hf : entries.find? (fun q => q.1 == "error") with
        | none =>
          left
          exact ⟨.jsonResp (Pyd.from_api_response (.obj entries) r.extraMeta), by
            simp [Pyd.handle_response, Pyd.handleJsonTry, h401, h400, hns, hb, hf]⟩
        | some p =>
          right
          right
          exact ⟨p, by simp [Pyd.handle_response, Pyd.handleJsonTry, h401, h400, hns,
            hb, hf, Pyd.PyError.msg]⟩

/-- Witness for the amended C5 at the concrete 401 response. -/
theorem status_classification_witness :
    Api.classify_response resp401 =
      .error (.authenticationError "Invalid authentication credentials") ∧
    Pyd.handle_response resp401 .json =
      .error (.authenticationError "Invalid authentication credentials") :=
  (status_classification resp401).1 rfl

/-! ### Model validation (both clients)

Python string primitives are embedded at the character-list level with
Python's semantics: `split` keeps empty pieces, `strip` removes surrounding
whitespace, `lower` maps ASCII letters, `replace('-', '_')` maps characters.
-/

/-- Python `s.lower()`. -/
def pyLower (l : List Char) : List Char := l.map Char.toLower

/-- Python `s.strip()`. -/
def pyStrip (l : List Char) : List Char :=
  ((l.dropWhile Char.isWhitespace).reverse.dropWhile Char.isWhitespace).reverse

/-- Python `s.replace('-', '_')`. -/
def pyReplaceDashUnderscore (l : List Char) : List Char :=
  l.map (fun c => if c = '-' then '_' else c)

/-- Worker for `pySplitOn`: `acc` holds the current piece reversed. -/
def pySplitOnGo (sep : Char) : List Char → List Char → List (List Char)
  | [], acc => [acc.reverse]
  | c :: rest, acc =>
      if c = sep then acc.reverse :: pySplitOnGo sep rest []
      else pySplitOnGo sep rest (c :: acc)

/-- Python `s.split(sep)`: splits at every separator, keeping empty pieces. -/
def pySplitOn (sep : Char) (l : List Char) : List (List Char) :=
  pySplitOnGo sep l []

/-- Python `s.split(sep, 1)` for a separator known to occur: the piece before
the first separator and everything after it.  (When the separator is absent
the whole string is returned as the first piece; both validators guard the
call with a containment check.) -/
def pySplit1 (sep : Char) : List Char → List Char × List Char
  | [] => ([], [])
  | c :: rest =>
      if c = sep then ([], rest)
      else ((pySplit1 sep rest).1.cons c, (pySplit1 sep rest).2)

/-- First-match lookup in a string-keyed association list (Python dict access). -/
def lookupStr {α : Type} (l : List (String × α)) (k : String) : Option α :=
  (l.find? (fun p => p.1 == k)).map (fun p => p.2)

/-- Embedding of `AVAILABLE_MODELS` (`protopred-pydantic-client/constants.py`): the static
model catalog, module → model category → model names. -/
def AVAILABLE_MODELS : List (String × List (String × List String)) :=
  [("ProtoPHYSCHEM",
    [("model_phys",
      ["melting_point", "boiling_point", "vapour_pressure", "water_solubility",
       "log_kow", "log_d", "surface_tension"])]),
   ("ProtoADME",
    [("model_abs",
      ["bioavailability20", "bioavailability30", "caco-2_permeability",
       "p-gp_inhibitor", "p-gp_substrate", "skin_permeability",
       "human_intestinal_absorption"]),
     ("model_met",
      ["CYP450_1A2_inhibitor", "CYP450_1A2_substrate", "CYP450_2C19_inhibitor",
       "CYP450_2C19_substrate", "CYP450_2C9_inhibitor", "CYP450_2D6_inhibitor",
       "CYP450_2D6_substrate", "CYP450_3A4_inhibitor", "CYP450_3A4_substrate",
       "human_liver_microsomal"]),
     ("model_dist",
      ["blood-brain_barrier", "plasma-protein_binding", "volume_of_distribution"]),
     ("model_exc",
      ["half-life", "OATP1B1", "OATP1B3", "BSEP"])])]

/-- Modelled from the spec: `protopred-api/protopred/constants.py` is absent
from the source tree (only imported), so the catalog the protopred-api
validator reads is taken from the spec's model catalog (§3), which the
pydantic client's `constants.py` spells out and
`tests/test_client.py` exercises (`model_phys:water_solubility`,
`model_phys:melting_point` are valid). -/
def AVAILABLE_MODELS_api : List (String × List (String × List String)) :=
  AVAILABLE_MODELS

/-- The `ModuleType` / `Module` enum (both clients). -/
inductive ModuleType where
  | PROTOPHYSCHEM
  | PROTOADME
deriving DecidableEq, Repr

/-- The enum's string value. -/
def ModuleType.value : ModuleType → String
  | .PROTOPHYSCHEM => "ProtoPHYSCHEM"
  | .PROTOADME => "ProtoADME"

/-- The catalog of one module (`AVAILABLE_MODELS[module.value]`). -/
def moduleCatalog (module : ModuleType) : List (String × List String) :=
  (lookupStr AVAILABLE_MODELS module.value).getD []

theorem moduleCatalog_eq (module : ModuleType) :
    lookupStr AVAILABLE_MODELS module.value = some (moduleCatalog module) := by
  cases module <;> rfl

namespace Pyd

/-- The `validate_models_list` field validator
(`protopred-pydantic-client/models.py`): the list must be non-empty after
stripping, and every comma-separated piece (stripped) must contain `':'`;
the first offender is named in the error. -/
def validate_models_list (v : String) : Except String Unit :=
  if pyStrip v.data = [] then .error "models_list cannot be empty"
  else
    match ((pySplitOn ',' v.data).map pyStrip).find? (fun m => !(m.contains ':')) with
    | some m =>
        .error ("Invalid model format: " ++ String.mk m ++
          ". Expected 'model_type:model_name'")
    | none => .ok ()

/-- The category-unknown message of `validate_models_for_module`. -/
def typeMsg (module_name : String) (catalog : List (String × List String))
    (t : List Char) : String :=
  "Unknown model type '" ++ String.mk t ++ "' for " ++ module_name ++
    ". Available: " ++ String.intercalate ", " (catalog.map (fun p => p.1))

/-- The name-unknown message of `validate_models_for_module`. -/
def nameMsg (module_name : String) (names : List String) (n t : List Char) : String :=
  "Unknown model '" ++ String.mk n ++ "' for " ++ module_name ++ "/" ++
    String.mk t ++ ". Available: " ++ String.intercalate ", " names

/-- One selector of `validate_models_for_module`'s loop: pieces with `':'`
are split once at the first `':'`, both halves stripped and lowercased; the
category must be a key of the catalog with keys lowercased; the name,
`'-'`→`'_'` normalized, must occur in that category's name list normalized
the same way.  Pieces without `':'` are skipped (the field validator already
rejected them). -/
def check_selector (module_name : String) (catalog : List (String × List String))
    (m : List Char) : Except String Unit :=
  if m.contains ':' then
    match lookupStr (catalog.map (fun p => (String.mk (pyLower p.1.data), p.2)))
        (String.mk (pyLower (pyStrip (pySplit1 ':' m).1))) with
    | none => .error (typeMsg module_name catalog (pyLower (pyStrip (pySplit1 ':' m).1)))
    | some names =>
        if (names.map (fun s => String.mk (pyReplaceDashUnderscore (pyLower s.data)))).contains
            (String.mk (pyReplaceDashUnderscore (pyLower (pyStrip (pySplit1 ':' m).2)))) then
          .ok ()
        else
          .error (nameMsg module_name names (pyLower (pyStrip (pySplit1 ':' m).2))
            (pyLower (pyStrip (pySplit1 ':' m).1)))
  else .ok ()

/-- The loop of `validate_models_for_module`: fail on the first bad selector. -/
def check_selectors (module_name : String) (catalog : List (String × List String)) :
    List (List Char) → Except String Unit
  | [] => .ok ()
  | m :: rest =>
      match check_selector module_name catalog m with
      | .error e => .error e
      | .ok _ => check_selectors module_name catalog rest

/-- The `validate_models_for_module` model validator: a module missing from
`AVAILABLE_MODELS` is silently accepted (the Python guard just skips), else
every comma-separated (stripped) selector is checked. -/
def validate_models_for_module (module : ModuleType) (models_list : String) :
    Except String Unit :=
  match lookupStr AVAILABLE_MODELS module.value with
  | none => .ok ()
  | some catalog =>
      check_selectors module.value catalog ((pySplitOn ',' models_list.data).map pyStrip)

/-- Building a `PredictionRequest` runs the field validator, then the model
validator. -/
def validateRequest (module : ModuleType) (models_list : String) : Except String Unit :=
  match validate_models_list models_list with
  | .error e => .error e
  | .ok _ => validate_models_for_module module models_list

end Pyd

namespace Api

/-- The loop of `ProtoPREDClient._validate_models`
(`protopred-api/protopred/client.py`): each stripped comma piece must
contain `':'`; it is split once, both halves stripped and lowercased; the
category must be a key of the module's catalog as written; the name must
occur in the category's name list compared lowercase — with **no**
`'-'`/`'_'` normalization. -/
def check_selectors (module : ModuleType) : List (List Char) → Except String Unit
  | [] => .ok ()
  | m :: rest =>
      if !(m.contains ':') then
        .error ("Invalid model format: " ++ String.mk m ++
          ". Expected format: 'model_type:model_name'")
      else
        match lookupStr AVAILABLE_MODELS_api module.value with
        | none => .error ("Unknown module: " ++ module.value)
        | some catalog =>
            match lookupStr catalog (String.mk (pyLower (pyStrip (pySplit1 ':' m).1))) with
            | none =>
                .error ("Unknown model type '" ++
                  String.mk (pyLower (pyStrip (pySplit1 ':' m).1)) ++ "' for module " ++
                  module.value)
            | some names =>
                if (names.map (fun s => String.mk (pyLower s.data))).contains
                    (String.mk (pyLower (pyStrip (pySplit1 ':' m).2))) then
                  check_selectors module rest
                else
                  .error ("Unknown model '" ++
                    String.mk (pyLower (pyStrip (pySplit1 ':' m).2)) ++ "' for " ++
                    module.value ++ "/" ++ String.mk (pyLower (pyStrip (pySplit1 ':' m).1)))

/-- Embedding of `ProtoPREDClient._validate_models(module, models_str)`. -/
def validate_models (module : ModuleType) (models_str : String) : Except String Unit :=
  check_selectors module ((pySplitOn ',' models_str.data).map pyStrip)

end Api

/-- The claim's validity rule for one selector: ignoring surrounding
whitespace it contains `':'`; the category part matches a catalog key
case-insensitively; and the name part matches a catalog name
case-insensitively with `'-'` and `'_'` treated as equivalent. -/
def claimValid (catalog : List (String × List String)) (sel : String) : Prop :=
  (pyStrip sel.data).contains ':' = true ∧
  ∃ entry ∈ catalog,
    String.mk (pyLower entry.1.data) =
      String.mk (pyLower (pyStrip (pySplit1 ':' (pyStrip sel.data)).1)) ∧
    ∃ nm ∈ entry.2,
      String.mk (pyReplaceDashUnderscore (pyLower nm.data)) =
        String.mk (pyReplaceDashUnderscore (pyLower (pyStrip (pySplit1 ':' (pyStrip sel.data)).2)))

/-- The rule the protopred-api validator actually implements: like
`claimValid` but the category must match the catalog key exactly (keys are
lowercase already) and the name case-insensitively with no `'-'`/`'_'`
equivalence. -/
def apiValid (catalog : List (String × List String)) (sel : String) : Prop :=
  (pyStrip sel.data).contains ':' = true ∧
  ∃ entry ∈ catalog,
    entry.1 = String.mk (pyLower (pyStrip (pySplit1 ':' (pyStrip sel.data)).1)) ∧
    ∃ nm ∈ entry.2,
      String.mk (pyLower nm.data) =
        String.mk (pyLower (pyStrip (pySplit1 ':' (pyStrip sel.data)).2))

instance (catalog : List (String × List String)) (sel : String) :
    Decidable (claimValid catalog sel) := by
  unfold claimValid
  exact inferInstance

instance (catalog : List (String × List String)) (sel : String) :
    Decidable (apiValid catalog sel) := by
  unfold apiValid
  exact inferInstance

/-- Dict lookup of a present key under distinct keys. -/
theorem lookupStr_eq_some_of_mem {α : Type} {l : List (String × α)}
    (hnd : (l.map Prod.fst).Nodup) {k : String} {v : α} (h : (k, v) ∈ l) :
    lookupStr l k = some v := by
  unfold lookupStr
  rw [find?_key_of_mem hnd h]
  rfl

/-- A successful dict lookup comes from a stored entry. -/
theorem lookupStr_eq_some_elim {α : Type} {l : List (String × α)} {k : String} {v : α}
    (h : lookupStr l k = some v) : ∃ p ∈ l, p.1 = k ∧ p.2 = v := by
  unfold lookupStr at h
  cases hf : l.find? (fun p => p.1 == k) with
  | none => rw [hf] at h; cases h
  | some q =>
    rw [hf] at h
    injection h with h2
    exact ⟨q, List.mem_of_find?_eq_some hf, by simpa using List.find?_some hf, h2⟩

/-- The `Bool` membership test versus membership. -/
theorem contains_iff_mem {α : Type} [BEq α] [LawfulBEq α] (l : List α) (x : α) :
    l.contains x = true ↔ x ∈ l := by
  simp [List.contains, List.elem_iff]

/-- Splitting on an absent separator keeps the string whole (worker form). -/
theorem pySplitOnGo_no_sep (sep : Char) :
    ∀ (l acc : List Char), l.contains sep = false →
      pySplitOnGo sep l acc = [acc.reverse ++ l] := by
  intro l
  induction l with
  | nil => intro acc h; simp [pySplitOnGo]
  | cons c rest ih =>
    intro acc h
    have hc : ¬(c = sep) := by
      intro he
      subst he
      rw [(contains_iff_mem (c :: rest) c).2 (List.mem_cons_self c rest)] at h
      cases h
    have hrest : rest.contains sep = false := by
      cases hr : rest.contains sep with
      | false => rfl
      | true =>
        rw [(contains_iff_mem (c :: rest) sep).2
          (List.mem_cons_of_mem c ((contains_iff_mem rest sep).1 hr))] at h
        cases h
    unfold pySplitOnGo
    rw [if_neg hc, ih _ hrest]
    simp

/-- Splitting on an absent separator keeps the string whole. -/
theorem pySplitOn_no_sep (sep : Char) (l : List Char) (h : l.contains sep = false) :
    pySplitOn sep l = [l] := by
  simpa using pySplitOnGo_no_sep sep l [] h

/-- A one-selector list is checked exactly as its single selector (pydantic
loop). -/
theorem Pyd.check_selectors_singleton (mn : String)
    (catalog : List (String × List String)) (m : List Char) :
    Pyd.check_selectors mn catalog [m] = Pyd.check_selector mn catalog m := by
  cases h : Pyd.check_selector mn catalog m with
  | error e => simp [Pyd.check_selectors, h]
  | ok a => cases a; simp [Pyd.check_selectors, h]

/-- The pydantic per-selector check succeeds exactly on the claim's rule:
category matched case-insensitively against the catalog keys, name matched
case-insensitively with `'-'`/`'_'` equivalence, both after stripping. -/
theorem Pyd.check_selector_ok_iff (mn : String)
    (catalog : List (String × List String)) (m : List Char)
    (hnd : (catalog.map (fun p => String.mk (pyLower p.1.data))).Nodup)
    (hcol : m.contains ':' = true) :
    Pyd.check_selector mn catalog m = .ok () ↔
      ∃ entry ∈ catalog,
        String.mk (pyLower entry.1.data) =
          String.mk (pyLower (pyStrip (pySplit1 ':' m).1)) ∧
        ∃ nm ∈ entry.2,
          String.mk (pyReplaceDashUnderscore (pyLower nm.data)) =
            String.mk (pyReplaceDashUnderscore (pyLower (pyStrip (pySplit1 ':' m).2))) := by
  have hndm : ((catalog.map (fun p => (String.mk (pyLower p.1.data), p.2))).map
      Prod.fst).Nodup := by
    simpa [List.map_map, Function.comp] using hnd
  unfold Pyd.check_selector
  rw [if_pos hcol]
  cases hl : lookupStr (catalog.map (fun p => (String.mk (pyLower p.1.data), p.2)))
      (String.mk (pyLower (pyStrip (pySplit1 ':' m).1))) with
  | none =>
    constructor
    · intro h
      exact absurd h (by simp)
    · rintro ⟨entry, hentry, hkey, -⟩
      have hmm : (String.mk (pyLower entry.1.data), entry.2) ∈
          catalog.map (fun p => (String.mk (pyLower p.1.data), p.2)) :=
        List.mem_map.2 ⟨entry, hentry, rfl⟩
      rw [hkey] at hmm
      have h2 := lookupStr_eq_some_of_mem hndm hmm
      rw [hl] at h2
      cases h2
  | some names =>
    dsimp only
    constructor
    · intro h
      by_cases hc : (names.map
          (fun s => String.mk (pyReplaceDashUnderscore (pyLower s.data)))).contains
          (String.mk (pyReplaceDashUnderscore
            (pyLower (pyStrip (pySplit1 ':' m).2)))) = true
      · obtain ⟨q, hqmem, hq1, hq2⟩ := lookupStr_eq_some_elim hl
        obtain ⟨entry, hentry, hqe⟩ := List.mem_map.1 hqmem
        refine ⟨entry, hentry, ?_, ?_⟩
        · rw [← hqe] at hq1
          exact hq1
        · have hmem2 := (contains_iff_mem _ _).1 hc
          obtain ⟨nm, hnm, hnmeq⟩ := List.mem_map.1 hmem2
          have he2 : entry.2 = names := by
            rw [← hqe] at hq2
            exact hq2
          exact ⟨nm, he2 ▸ hnm, hnmeq⟩
      · rw [if_neg hc] at h
        cases h
    · rintro ⟨entry, hentry, hkey, nm, hnm, hval⟩
      have hmm : (String.mk (pyLower entry.1.data), entry.2) ∈
          catalog.map (fun p => (String.mk (pyLower p.1.data), p.2)) :=
        List.mem_map.2 ⟨entry, hentry, rfl⟩
      rw [hkey] at hmm
      have h2 := lookupStr_eq_some_of_mem hndm hmm
      rw [hl] at h2
      injection h2 with h2
      rw [if_pos ((contains_iff_mem _ _).2
        (List.mem_map.2 ⟨nm, h2 ▸ hnm, hval⟩))]

/-- The catalog keys of either module are distinct after lowercasing. -/
theorem moduleCatalog_keys_nodup (module : ModuleType) :
    ((moduleCatalog module).map (fun p => String.mk (pyLower p.1.data))).Nodup := by
  cases module <;> decide

/-- The catalog keys of either module are distinct as written. -/
theorem moduleCatalog_keys_nodup_api (module : ModuleType) :
    ((moduleCatalog module).map Prod.fst).Nodup := by
  cases module <;> decide

theorem AVAILABLE_MODELS_api_lookup (module : ModuleType) :
    lookupStr AVAILABLE_MODELS_api module.value = some (moduleCatalog module) := by
  cases module <;> rfl

/-- The protopred-api check of a single selector succeeds exactly on its
case-insensitive rule (exact category key, lowercased name, no `'-'`/`'_'`
normalization). -/
theorem Api.check_one_ok_iff (module : ModuleType) (m : List Char)
    (hcol : m.contains ':' = true) :
    Api.check_selectors module [m] = .ok () ↔
      ∃ entry ∈ moduleCatalog module,
        entry.1 = String.mk (pyLower (pyStrip (pySplit1 ':' m).1)) ∧
        ∃ nm ∈ entry.2,
          String.mk (pyLower nm.data) =
            String.mk (pyLower (pyStrip (pySplit1 ':' m).2)) := by
  have hnd := moduleCatalog_keys_nodup_api module
  unfold Api.check_selectors
  rw [if_neg (by rw [hcol]; simp), AVAILABLE_MODELS_api_lookup]
  dsimp only
  cases hl : lookupStr (moduleCatalog module)
      (String.mk (pyLower (pyStrip (pySplit1 ':' m).1))) with
  | none =>
    constructor
    · intro h
      exact absurd h (by simp)
    · rintro ⟨entry, hentry, hkey, -⟩
      have hmm : (String.mk (pyLower (pyStrip (pySplit1 ':' m).1)), entry.2) ∈
          moduleCatalog module := by
        rw [← hkey, Prod.mk.eta]
        exact hentry
      have h2 := lookupStr_eq_some_of_mem hnd hmm
      rw [hl] at h2
      cases h2
  | some names =>
    dsimp only
    constructor
    · intro h
      by_cases hc : (names.map (fun s => String.mk (pyLower s.data))).contains
          (String.mk (pyLower (pyStrip (pySplit1 ':' m).2))) = true
      · obtain ⟨q, hqmem, hq1, hq2⟩ := lookupStr_eq_some_elim hl
        obtain ⟨nm, hnm, hnmeq⟩ := List.mem_map.1 ((contains_iff_mem _ _).1 hc)
        exact ⟨q, hqmem, hq1, nm, hq2 ▸ hnm, hnmeq⟩
      · rw [if_neg hc] at h
        cases h
    · rintro ⟨entry, hentry, hkey, nm, hnm, hval⟩
      have hmm : (String.mk (pyLower (pyStrip (pySplit1 ':' m).1)), entry.2) ∈
          moduleCatalog module := by
        rw [← hkey, Prod.mk.eta]
        exact hentry
      have h2 := lookupStr_eq_some_of_mem hnd hmm
      rw [hl] at h2
      injection h2 with h2
      rw [if_pos ((contains_iff_mem _ _).2 (List.mem_map.2 ⟨nm, h2 ▸ hnm, hval⟩))]
      simp [Api.check_selectors]

/-- Evaluating `validateRequest` on a comma-free selector, in closed form: empty check,
format check, then the per-selector catalog check. -/
theorem Pyd.validateRequest_single (module : ModuleType) (sel : String)
    (hnc : sel.data.contains ',' = false) :
    Pyd.validateRequest module sel =
      (if pyStrip sel.data = [] then .error "models_list cannot be empty"
       else if (pyStrip sel.data).contains ':' = false then
         .error ("Invalid model format: " ++ String.mk (pyStrip sel.data) ++
           ". Expected 'model_type:model_name'")
       else Pyd.check_selector module.value (moduleCatalog module) (pyStrip sel.data)) := by
  unfold Pyd.validateRequest Pyd.validate_models_list
  rw [pySplitOn_no_sep ',' sel.data hnc]
  by_cases he : pyStrip sel.data = []
  · rw [if_pos he, if_pos he]
  · rw [if_neg he, if_neg he]
    by_cases hcol : (pyStrip sel.data).contains ':' = false
    · rw [if_pos hcol]
      have : (([sel.data].map pyStrip).find? (fun m => !(m.contains ':'))) =
          some (pyStrip sel.data) := by
        simp only [List.map_cons, List.map_nil]
        exact List.find?_cons_of_pos _ (by rw [hcol]; rfl)
      rw [this]
    · rw [if_neg hcol]
      have hcolT : (pyStrip sel.data).contains ':' = true := by
        cases hx : (pyStrip sel.data).contains ':' with
        | false => exact absurd hx hcol
        | true => rfl
      have : (([sel.data].map pyStrip).find? (fun m => !(m.contains ':'))) = none := by
        simp only [List.map_cons, List.map_nil]
        rw [List.find?_cons_of_neg _ (by rw [hcolT]; simp)]
        rfl
      rw [this]
      unfold Pyd.validate_models_for_module
      rw [moduleCatalog_eq, pySplitOn_no_sep ',' sel.data hnc]
      simpa using Pyd.check_selectors_singleton module.value (moduleCatalog module)
        (pyStrip sel.data)

/-- Evaluating `_validate_models` on a comma-free selector checks just that selector. -/
theorem Api.validate_models_single (module : ModuleType) (sel : String)
    (hnc : sel.data.contains ',' = false) :
    Api.validate_models module sel = Api.check_selectors module [pyStrip sel.data] := by
  unfold Api.validate_models
  rw [pySplitOn_no_sep ',' sel.data hnc]
  rfl

/-- C6 counterexample: the selector name `melting-point` matches the catalog
entry `melting_point` under the claim's rule (case-insensitive with `'-'`/`'_'`
equivalence), and the pydantic validator indeed accepts it — but the
protopred-api validator, which lowercases without normalizing `'-'`/`'_'`,
rejects it, so "validation raises nothing" fails on the code. -/
theorem hyphen_rule_counterexample :
    claimValid (moduleCatalog .PROTOPHYSCHEM) "model_phys:melting-point" ∧
    Pyd.validateRequest .PROTOPHYSCHEM "model_phys:melting-point" = .ok () ∧
    Api.validate_models .PROTOPHYSCHEM "model_phys:melting-point" =
      .error "Unknown model 'melting-point' for ProtoPHYSCHEM/model_phys" :=
  ⟨by decide, rfl, rfl⟩

/-- C6 (amended): on comma-free selectors, the pydantic validator accepts
exactly the claim's rule (category case-insensitive, name case-insensitive
with `'-'`/`'_'` equivalence), while the protopred-api validator accepts the
case-insensitive rule without `'-'`/`'_'` normalization; both reject a
selector lacking `':'` with an error naming it, and the pydantic validator's
category/name failures name the unrecognized part (with the valid set). -/
theorem validator_rule (module : ModuleType) (sel : String)
    (hnc : sel.data.contains ',' = false) :
    (Pyd.validateRequest module sel = .ok () ↔ claimValid (moduleCatalog module) sel) ∧
    (Api.validate_models module sel = .ok () ↔ apiValid (moduleCatalog module) sel) ∧
    ((pyStrip sel.data).contains ':' = false → pyStrip sel.data ≠ [] →
      Pyd.validateRequest module sel =
        .error ("Invalid model format: " ++ String.mk (pyStrip sel.data) ++
          ". Expected 'model_type:model_name'")) ∧
    ((pyStrip sel.data).contains ':' = false →
      Api.validate_models module sel =
        .error ("Invalid model format: " ++ String.mk (pyStrip sel.data) ++
          ". Expected format: 'model_type:model_name'")) ∧
    ((pyStrip sel.data).contains ':' = true →
      (¬∃ entry ∈ moduleCatalog module,
        String.mk (pyLower entry.1.data) =
          String.mk (pyLower (pyStrip (pySplit1 ':' (pyStrip sel.data)).1))) →
      Pyd.validateRequest module sel =
        .error (Pyd.typeMsg module.value (moduleCatalog module)
          (pyLower (pyStrip (pySplit1 ':' (pyStrip sel.data)).1)))) ∧
    (∀ entry ∈ moduleCatalog module,
      (pyStrip sel.data).contains ':' = true →
      String.mk (pyLower entry.1.data) =
        String.mk (pyLower (pyStrip (pySplit1 ':' (pyStrip sel.data)).1)) →
      (¬∃ nm ∈ entry.2,
        String.mk (pyReplaceDashUnderscore (pyLower nm.data)) =
          String.mk (pyReplaceDashUnderscore
            (pyLower (pyStrip (pySplit1 ':' (pyStrip sel.data)).2)))) →
      Pyd.validateRequest module sel =
        .error (Pyd.nameMsg module.value entry.2
          (pyLower (pyStrip (pySplit1 ':' (pyStrip sel.data)).2))
          (pyLower (pyStrip (pySplit1 ':' (pyStrip sel.data)).1)))) := by
  rw [Pyd.validateRequest_single module sel hnc, Api.validate_models_single module sel hnc]
  refine ⟨?_, ?_, ?_, ?_, ?_, ?_⟩
  · by_cases he : pyStrip sel.data = []
    · rw [if_pos he]
      constructor
      · intro h
        cases h
      · rintro ⟨hcl, -⟩
        rw [he] at hcl
        cases hcl
    · rw [if_neg he]
      by_cases hcol : (pyStrip sel.data).contains ':' = false
      · rw [if_pos hcol]
        constructor
        · intro h
          cases h
        · rintro ⟨hcl, -⟩
          rw [hcl] at hcol
          cases hcol
      · rw [if_neg hcol]
        have hcolT : (pyStrip sel.data).contains ':' = true := by
          cases hx : (pyStrip sel.data).contains ':' with
          | false => exact absurd hx hcol
          | true => rfl
        rw [Pyd.check_selector_ok_iff module.value (moduleCatalog module)
          (pyStrip sel.data) (moduleCatalog_keys_nodup module) hcolT]
        unfold claimValid
        constructor
        · intro h
          exact ⟨hcolT, h⟩
        · rintro ⟨-, h⟩
          exact h
  · by_cases hcol : (pyStrip sel.data).contains ':' = true
    · rw [Api.check_one_ok_iff module (pyStrip sel.data) hcol]
      unfold apiValid
      constructor
      · intro h
        exact ⟨hcol, h⟩
      · rintro ⟨-, h⟩
        exact h
    · unfold Api.check_selectors
      rw [if_pos (by cases hx : (pyStrip sel.data).contains ':' with
        | false => rfl
        | true => exact absurd hx hcol)]
      constructor
      · intro h
        cases h
      · rintro ⟨hcl, -⟩
        exact absurd hcl hcol
  · intro hcol hne
    rw [if_neg hne, if_pos hcol]
  · intro hcol
    unfold Api.check_selectors
    rw [if_pos (by rw [hcol]; rfl)]
  · intro hcolT hnex
    rw [if_neg (by
        intro he
        rw [he] at hcolT
        cases hcolT),
      if_neg (by rw [hcolT]; simp)]
    unfold Pyd.check_selector
    rw [if_pos hcolT]
    cases hl : lookupStr ((moduleCatalog module).map
        (fun p => (String.mk (pyLower p.1.data), p.2)))
        (String.mk (pyLower (pyStrip (pySplit1 ':' (pyStrip sel.data)).1))) with
    | none => rfl
    | some names =>
      exfalso
      obtain ⟨q, hqmem, hq1, -⟩ := lookupStr_eq_some_elim hl
      obtain ⟨entry, hentry, hqe⟩ := List.mem_map.1 hqmem
      refine hnex ⟨entry, hentry, ?_⟩
      rw [← hqe] at hq1
      exact hq1
  · intro entry hentry hcolT hkey hnex
    rw [if_neg (by
        intro he
        rw [he] at hcolT
        cases hcolT),
      if_neg (by rw [hcolT]; simp)]
    unfold Pyd.check_selector
    rw [if_pos hcolT]
    have hmm : (String.mk (pyLower (pyStrip (pySplit1 ':' (pyStrip sel.data)).1)),
        entry.2) ∈ (moduleCatalog module).map
        (fun p => (String.mk (pyLower p.1.data), p.2)) := by
      rw [← hkey]
      exact List.mem_map.2 ⟨entry, hentry, rfl⟩
    have hndm : (((moduleCatalog module).map
        (fun p => (String.mk (pyLower p.1.data), p.2))).map Prod.fst).Nodup := by
      simpa [List.map_map, Function.comp] using moduleCatalog_keys_nodup module
    rw [lookupStr_eq_some_of_mem hndm hmm]
    dsimp only
    rw [if_neg (by
        intro hc
        obtain ⟨nm, hnm, hval⟩ := List.mem_map.1 ((contains_iff_mem _ _).1 hc)
        exact hnex ⟨nm, hnm, hval⟩)]

/-- Witness for the amended C6 at the concrete valid selector
`model_phys:water_solubility` for `ProtoPHYSCHEM`. -/
theorem validator_rule_witness :
    Pyd.validateRequest .PROTOPHYSCHEM "model_phys:water_solubility" = .ok () :=
  (validator_rule .PROTOPHYSCHEM "model_phys:water_solubility" (by decide)).1.2
    (by decide)

/-! ### The POST call: URL and redirect policy -/

/-- One outgoing POST as the HTTP layer receives it: destination URL and
whether redirects are followed automatically. -/
structure PostCall where
  url : String
  allowRedirects : Bool
deriving DecidableEq, Repr

/-- The URL upgrade in the protopred-api `_make_request`:
`url.replace('http://', 'https://', 1)` guarded by
`url.startswith('http://')` (so the replacement is of the prefix). -/
def Api.force_https (url : String) : String :=
  if "http://".data.isPrefixOf url.data then
    String.mk ("https://".data ++ url.data.drop 7)
  else url

/-- The POST of the protopred-api `_make_request`: upgraded URL,
`allow_redirects=False` passed explicitly. -/
def Api.post_call (base_url : String) : PostCall where
  url := Api.force_https base_url
  allowRedirects := false

/-- The POST of the pydantic `_make_request`: `self.session.post(
self.config.base_url, ...)` with no scheme handling and requests' default
redirect behaviour (follow). -/
def Pyd.post_call (cfg : Pyd.ClientConfig) : PostCall where
  url := cfg.base_url
  allowRedirects := true

/-- C7 counterexample: with the misconfigured plain-scheme base URL
`http://.../`, the pydantic client's POST goes to that exact URL — not an
`https://` one — and the HTTP layer is left at its default of auto-following
redirects. -/
theorem insecure_scheme_counterexample :
    (Pyd.post_call (Pyd.ClientConfig.ofBaseUrl "http://protopred.protoqsar.com/API/v2/")).url =
      "http://protopred.protoqsar.com/API/v2/" ∧
    ("https://".data.isPrefixOf
      (Pyd.post_call
        (Pyd.ClientConfig.ofBaseUrl "http://protopred.protoqsar.com/API/v2/")).url.data) =
      false ∧
    (Pyd.post_call
      (Pyd.ClientConfig.ofBaseUrl "http://protopred.protoqsar.com/API/v2/")).allowRedirects =
      true :=
  ⟨rfl, rfl, rfl⟩

/-- C7 (amended): the protopred-api transport upgrades an `http://` base URL
to `https://`, leaves an `https://` one unchanged — so for either scheme the
URL actually POSTed starts with `https://` — and passes
`allow_redirects=False`; the pydantic transport posts to the configured base
URL unchanged and follows redirects (requests' default). -/
theorem secure_scheme_enforced (url : String) :
    (("http://".data.isPrefixOf url.data) = true →
      (Api.post_call url).url = String.mk ("https://".data ++ url.data.drop 7)) ∧
    (("https://".data.isPrefixOf url.data) = true → (Api.post_call url).url = url) ∧
    (("http://".data.isPrefixOf url.data) = true ∨
        ("https://".data.isPrefixOf url.data) = true →
      ("https://".data.isPrefixOf (Api.post_call url).url.data) = true) ∧
    (Api.post_call url).allowRedirects = false ∧
    (∀ cfg : Pyd.ClientConfig,
      (Pyd.post_call cfg).url = cfg.base_url ∧ (Pyd.post_call cfg).allowRedirects = true) := by
  have hs : ("https://".data.isPrefixOf url.data) = true →
      ("http://".data.isPrefixOf url.data) = false := by
    intro h
    obtain ⟨rest, hrest⟩ := (List.isPrefixOf_iff_prefix.1 h)
    rw [← hrest]
    rfl
  refine ⟨?_, ?_, ?_, rfl, fun cfg => ⟨rfl, rfl⟩⟩
  · intro h
    unfold Api.post_call Api.force_https
    rw [if_pos h]
  · intro h
    unfold Api.post_call Api.force_https
    rw [if_neg (by rw [hs h]; exact Bool.false_ne_true)]
  · intro h
    rcases h with h | h
    · unfold Api.post_call Api.force_https
      rw [if_pos h]
      simp [List.isPrefixOf_iff_prefix]
    · unfold Api.post_call Api.force_https
      rw [if_neg (by rw [hs h]; exact Bool.false_ne_true)]
      exact h

/-- Witness for the amended C7 at the misconfigured plain-scheme URL. -/
theorem secure_scheme_enforced_witness :
    (Api.post_call "http://protopred.protoqsar.com/API/v2/").url =
      String.mk ("https://".data ++ ("http://protopred.protoqsar.com/API/v2/" : String).data.drop 7) :=
  (secure_scheme_enforced "http://protopred.protoqsar.com/API/v2/").1 (by decide)

/-- C10: the `ClientConfig` base-URL invariant.  Every accepted base URL ends
with `'/'`; it is kept verbatim when it already ends with `'/'` and gets one
appended otherwise; and the transport later POSTs to exactly the stored
`base_url` (no client operation alters it). -/
theorem base_url_invariant (v : String) :
    Pyd.endsWithSlash (Pyd.ClientConfig.ofBaseUrl v).base_url = true ∧
    (Pyd.endsWithSlash v = true → (Pyd.ClientConfig.ofBaseUrl v).base_url = v) ∧
    (Pyd.endsWithSlash v = false → (Pyd.ClientConfig.ofBaseUrl v).base_url = v ++ "/") ∧
    (Pyd.post_call (Pyd.ClientConfig.ofBaseUrl v)).url =
      (Pyd.ClientConfig.ofBaseUrl v).base_url := by
  have happ : Pyd.endsWithSlash (v ++ "/") = true := by
    unfold Pyd.endsWithSlash
    rw [String.data_append]
    simp [List.getLast?_concat]
  refine ⟨?_, ?_, ?_, rfl⟩
  · unfold Pyd.ClientConfig.ofBaseUrl Pyd.validate_base_url
    by_cases h : Pyd.endsWithSlash v = true
    · rw [if_pos h]
      exact h
    · rw [if_neg h]
      exact happ
  · intro h
    unfold Pyd.ClientConfig.ofBaseUrl Pyd.validate_base_url
    rw [if_pos h]
  · intro h
    unfold Pyd.ClientConfig.ofBaseUrl Pyd.validate_base_url
    rw [if_neg (by rw [h]; exact Bool.false_ne_true)]

/-- Witness for C10 at a base URL lacking the trailing slash. -/
theorem base_url_invariant_witness :
    (Pyd.ClientConfig.ofBaseUrl "https://protopred.protoqsar.com/API/v2").base_url =
      "https://protopred.protoqsar.com/API/v2" ++ "/" :=
  (base_url_invariant "https://protopred.protoqsar.com/API/v2").2.2.1 (by decide)

/-! ### Logging (protopred-api) -/

/-- The log lines of `ProtoPREDClient.__init__` (client.py lines 58-59). -/
def Api.init_log_lines (account_user base_url : String) (timeout : Nat) : List String :=
  ["ProtoPRED client initialized for user: " ++ account_user,
   "Base URL: " ++ base_url ++ ", Timeout: " ++ toString timeout ++ "s"]

/-- A canonical rendering of a Python dict for the `Request data: {...}`
debug line (the exact `repr` punctuation is not modelled; every key and value
flows into the line). -/
def Api.renderDict (l : List (String × String)) : String :=
  String.intercalate ", " (l.map (fun p => p.1 ++ ": " ++ p.2))

/-- Embedding of `ProtoPREDLogger.log_api_request` (logging_config.py lines 83-91): logs
the method and URL, then the request data with `account_token` and
`account_secret_key` filtered out — and nothing else. -/
def Api.log_api_request (method url : String) (data : List (String × String)) :
    List String :=
  ("API Request: " ++ method ++ " " ++ url) ::
    (if (data.filter
        (fun p => !(["account_token", "account_secret_key"].contains p.1))).isEmpty then
      []
    else
      ["Request data: " ++ Api.renderDict (data.filter
        (fun p => !(["account_token", "account_secret_key"].contains p.1)))])

/-- The flat request payload assembled by `predict` (client.py lines 123-130):
the three credentials, module, models list, input type. -/
def Api.request_query (account_token account_secret_key account_user module_v
    models_str input_type : String) : List (String × String) :=
  [("account_token", account_token),
   ("account_secret_key", account_secret_key),
   ("account_user", account_user),
   ("module", module_v),
   ("models_list", models_str),
   ("input_type", input_type)]

/-- Python `input_data[:50]` plus the `'...'` suffix of client.py line 146. -/
def Api.truncate50 (s : String) : String :=
  String.mk (s.data.take 50) ++ (if s.data.length > 50 then "..." else "")

/-- Every log line the protopred-api core emits on the single-SMILES
(`input_type=SMILES_TEXT`, JSON output) path of `predict` up to and including
the POST: the `__init__` lines (client.py 58-59), the prediction-start info
line (108), the `log_prediction_summary` line (109), `"Model validation
passed"` (113), the request-prepared line (138), the truncated single-SMILES
debug line (146), the `log_api_request` lines (290) on the payload including
`input_data` (145), the HTTPS-upgrade warning when the base URL starts
`http://` (294-296, after the request log), and the form-data send line
(309).  `nmol` is the molecule-count string computed at lines 100-106
(`"1"` unless the SMILES string names an existing file). -/
def Api.core_log_lines (account_token account_secret_key account_user base_url : String)
    (timeout : Nat)
    (module_v models_str input_type_v output_type_v input_data nmol : String) :
    List String :=
  Api.init_log_lines account_user base_url timeout ++
    ["Starting prediction - Module: " ++ module_v ++ ", Models: " ++ models_str,
     "Prediction job - Module: " ++ module_v ++ ", Models: " ++ models_str ++
       ", Molecules: " ++ nmol,
     "Model validation passed",
     "Request prepared - Input type: " ++ input_type_v ++ ", Output type: " ++
       output_type_v,
     "Single SMILES input: " ++ Api.truncate50 input_data] ++
    Api.log_api_request "POST" base_url
      (Api.request_query account_token account_secret_key account_user module_v
        models_str input_type_v ++ [("input_data", input_data)]) ++
    (if "http://".data.isPrefixOf base_url.data then
      ["Upgraded HTTP to HTTPS: " ++ Api.force_https base_url]
    else []) ++
    ["Sending form data request"]

/-- One full run of the protopred-api core against a completed response: the
log lines emitted through the POST, and the classification of the response.
Credentials enter only the POST payload; the classification result is
computed from the response alone. -/
def Api.core_run (account_token account_secret_key account_user base_url : String)
    (timeout : Nat)
    (module_v models_str input_type_v output_type_v input_data nmol : String)
    (r : Pyd.HttpResp) : List String × Except Pyd.PyError Pyd.HttpResp :=
  (Api.core_log_lines account_token account_secret_key account_user base_url timeout
    module_v models_str input_type_v output_type_v input_data nmol,
   Api.classify_response r)

/-- C8 counterexample: `account_user` is a credential, yet it appears
verbatim in the very first log line the core emits, and two runs differing
only in `account_user` produce different logs. -/
theorem account_user_logged_counterexample :
    (Api.core_log_lines "tok" "sec" "alice" "https://protopred.protoqsar.com/API/v2/" 30
        "ProtoPHYSCHEM" "model_phys:water_solubility" "SMILES_TEXT" "JSON"
        "CCCCC" "1").head? =
      some ("ProtoPRED client initialized for user: " ++ "alice") ∧
    ("alice" : String).data <:+:
      ("ProtoPRED client initialized for user: " ++ "alice").data ∧
    Api.core_log_lines "tok" "sec" "alice" "https://protopred.protoqsar.com/API/v2/" 30
        "ProtoPHYSCHEM" "model_phys:water_solubility" "SMILES_TEXT" "JSON"
        "CCCCC" "1" ≠
      Api.core_log_lines "tok" "sec" "bob" "https://protopred.protoqsar.com/API/v2/" 30
        "ProtoPHYSCHEM" "model_phys:water_solubility" "SMILES_TEXT" "JSON"
        "CCCCC" "1" := by
  refine ⟨rfl, ?_, by decide⟩
  exact ⟨"ProtoPRED client initialized for user: ".data, [], by simp⟩

/-- C8 (amended): the two secret credentials `account_token` and
`account_secret_key` never influence the emitted log lines — any two runs
differing only in them log identically (`log_api_request` filters exactly
those two keys, and no other line interpolates them) — and the response
classification, hence every error the core raises from a completed response,
is unchanged when any of the three credentials varies; but `account_user`
does appear in the logs, interpolated into the client-initialization
line. -/
theorem credentials_not_logged (tok tok' sec sec' user user' base_url : String)
    (timeout : Nat)
    (module_v models_str input_type_v output_type_v input_data nmol : String)
    (r : Pyd.HttpResp) :
    (Api.core_run tok sec user base_url timeout module_v models_str input_type_v
        output_type_v input_data nmol r).1 =
      (Api.core_run tok' sec' user base_url timeout module_v models_str input_type_v
        output_type_v input_data nmol r).1 ∧
    (Api.core_run tok sec user base_url timeout module_v models_str input_type_v
        output_type_v input_data nmol r).2 =
      (Api.core_run tok' sec' user' base_url timeout module_v models_str input_type_v
        output_type_v input_data nmol r).2 ∧
    ("ProtoPRED client initialized for user: " ++ user) ∈
      (Api.core_run tok sec user base_url timeout module_v models_str input_type_v
        output_type_v input_data nmol r).1 ∧
    user.data <:+: ("ProtoPRED client initialized for user: " ++ user).data := by
  refine ⟨rfl, rfl, ?_, ?_⟩
  · simp [Api.core_run, Api.core_log_lines, Api.init_log_lines]
  · exact ⟨"ProtoPRED client initialized for user: ".data, [], by simp⟩

end ProtoPred
